import Mathlib

/-!
Verification of the short-bigfive personality-quiz application.

The embedding models, from the source:
  * the question catalog `QUESTIONS` (src/unnamed/part_000);
  * the answer map as an insertion-ordered association list, mirroring a
    JavaScript object built by spread updates (`handleAnswer`);
  * the scorer `scores` / `calculateTrait` (src/unnamed/part_001, lines 59-79),
    where a failed property lookup (JS `undefined`, propagating to `NaN`)
    is modelled by `Option`;
  * the session state (`answers`, `isAnalyzing`, `analysis`, `error`,
    `showResults`) and its operations `handleAnswer`, `runAnalysis`
    (split at its `await` point into start and completion), and `reset`.
-/

/-- The five Big-Five trait codes (src/src/types.ts). -/
inductive Trait where
  | E | A | C | N | O
deriving DecidableEq, BEq, Repr

/-- A catalog question (src/src/types.ts `Question`). -/
structure Question where
  id : Nat
  text : String
  trait : Trait
  isPositive : Bool
deriving DecidableEq, Repr

/-- The fixed question catalog (src/unnamed/part_000 `QUESTIONS`). -/
def QUESTIONS : List Question := [
  { id := 1, text := "私は、初めての人に会うのが好きで、会話をするのが好きで、人と会うのを楽しめる人間だ。", trait := .E, isPositive := true },
  { id := 2, text := "私は、人に対して思いやりがあり、その思いやりを行動に移し、他人を差別しない人間だ。", trait := .A, isPositive := true },
  { id := 3, text := "私は、きっちりと物事をこなし、手際よく行動し、適切に物事を行おうとする人間だ。", trait := .C, isPositive := true },
  { id := 4, text := "私は、いつも心配事が多く、不安になりやすく、気分の浮き沈みが多い人間だ。", trait := .N, isPositive := true },
  { id := 5, text := "私は、知的な活動が得意で、創造性が高くて好奇心があり、新たなことを探求する人間だ。", trait := .O, isPositive := true },
  { id := 6, text := "私は、恥ずかしがり屋で、物静かで、人が多いパーティなどは苦手な人間だ。", trait := .E, isPositive := false },
  { id := 7, text := "私は、すぐ思ったことを口にし、冷淡な面があり、他人に同情を感じることはめったにない人間だ。", trait := .A, isPositive := false },
  { id := 8, text := "私は、あまり考えずに行動し、さほどきっちりは行動せず、ギリギリまで物事に手を付けない人間だ。", trait := .C, isPositive := false },
  { id := 9, text := "私は、たいていリラックスしており、落ち着きがあり、めったに問題について悩まない人間だ。", trait := .N, isPositive := false },
  { id := 10, text := "私は、物事を現実的に考え、伝統的な考え方を好み、めったに空想などで時間を浪費しない人間だ。", trait := .O, isPositive := false }
]

/-- The answer mapping: a JavaScript object from question id to raw value,
modelled as an insertion-ordered association list with unique keys. -/
abbrev AnswerMap := List (Nat × Nat)

/-- JS property read `answers[id]`: the value at the key, `none` when the
key is absent (JS `undefined`). -/
def lookupAnswer : AnswerMap → Nat → Option Nat
  | [], _ => none
  | (k, v) :: rest, id => if k = id then some v else lookupAnswer rest id

/-- JS object spread `{...prev, [questionId]: value}`: replace the value at
an existing key in place, otherwise append the new key at the end. -/
def insertAnswer (m : AnswerMap) (id v : Nat) : AnswerMap :=
  if (lookupAnswer m id).isSome then
    (m : List (Nat × Nat)).map (fun p => if p.1 = id then (id, v) else p)
  else
    (m : List (Nat × Nat)) ++ [(id, v)]

/-- Number of keys of the answer object (`Object.keys(answers).length`);
equal to the list length because keys are unique. -/
def answerCount (m : AnswerMap) : Nat := (m : List (Nat × Nat)).length

/-- `calculateTrait` (src/unnamed/part_001 lines 62-70): find the positive
and negative question of the trait and return `(posVal + (4 - negVal)) / 2`.
A missing answer (JS `undefined`, hence `NaN`) is modelled by `none`. -/
def calculateTrait (answers : AnswerMap) (trait : Trait) : Option ℚ :=
  match QUESTIONS.find? (fun q => q.trait == trait && q.isPositive),
        QUESTIONS.find? (fun q => q.trait == trait && !q.isPositive) with
  | some posQ, some negQ =>
    (lookupAnswer answers posQ.id).bind fun posVal =>
      (lookupAnswer answers negQ.id).map fun negVal =>
        ((posVal : ℚ) + (4 - (negVal : ℚ))) / 2
  | _, _ => none

/-- The five computed trait scores (src/src/types.ts `Scores`); each field
is `Option ℚ` because a missing answer yields JS `NaN`. -/
structure ScoresRec where
  E : Option ℚ
  A : Option ℚ
  C : Option ℚ
  N : Option ℚ
  O : Option ℚ
deriving DecidableEq, Repr

/-- The memoized `scores` value (src/unnamed/part_001 lines 59-79):
`null` until the answer object has at least 10 keys, otherwise the record
of the five per-trait computations. -/
def scores (answers : AnswerMap) : Option ScoresRec :=
  if answerCount answers < 10 then none
  else some {
    E := calculateTrait answers .E,
    A := calculateTrait answers .A,
    C := calculateTrait answers .C,
    N := calculateTrait answers .N,
    O := calculateTrait answers .O }

/-- Id of the positive-polarity question of a trait, as located by the
search with `find?` by the scorer over the catalog. -/
def posQId (t : Trait) : Nat :=
  ((QUESTIONS.find? (fun q => q.trait == t && q.isPositive)).map Question.id).getD 0

/-- Id of the negative-polarity question of a trait, as located by the
search with `find?` by the scorer over the catalog. -/
def negQId (t : Trait) : Nat :=
  ((QUESTIONS.find? (fun q => q.trait == t && !q.isPositive)).map Question.id).getD 0

/-- The parsed JSON payload of the analysis response: a JS object in which
any of the four fields may be absent (`JSON.parse` performs no shape
validation). -/
structure ParsedPayload where
  nickname : Option String
  traits : Option String
  jobs : Option String
  partner : Option String
deriving DecidableEq, Repr

/-- Outcome of the awaited external call inside the `try` block of `runAnalysis`:
either an exception (transport failure or malformed JSON making
`JSON.parse` throw), or a successfully parsed payload. -/
inductive FetchOutcome where
  | failure
  | success (payload : ParsedPayload)
deriving DecidableEq, Repr

/-- The generic user-facing error message set in the `catch` branch. -/
def analysisErrorMessage : String := "分析中にエラーが発生しました。もう一度お試しください。"

/-- The session state: the React component state of `App`
(src/unnamed/part_001 lines 42-46). -/
structure Session where
  answers : AnswerMap
  isAnalyzing : Bool
  analysis : Option ParsedPayload
  error : Option String
  showResults : Bool
deriving DecidableEq, Repr

/-- The initial session state (`useState` initializers). -/
def initialSession : Session :=
  { answers := [], isAnalyzing := false, analysis := none,
    error := none, showResults := false }

/-- `handleAnswer` (src/unnamed/part_001 lines 81-83): record an answer by
JS object spread. -/
def handleAnswer (s : Session) (questionId value : Nat) : Session :=
  { s with answers := insertAnswer s.answers questionId value }

/-- `allAnswered` (src/unnamed/part_001 line 85):
`Object.keys(answers).length === QUESTIONS.length`. -/
def allAnswered (s : Session) : Bool :=
  answerCount s.answers == QUESTIONS.length

/-- The synchronous head of `runAnalysis` (src/unnamed/part_001 lines
92-96), up to the `await`: return unchanged when `scores` is null,
otherwise set the in-flight flag, clear the error, and launch the external
invocation. The boolean records whether an invocation was launched. -/
def runAnalysisStart (s : Session) : Session × Bool :=
  if scores s.answers = none then (s, false)
  else ({ s with isAnalyzing := true, error := none }, true)

/-- The continuation of `runAnalysis` after the `await` (lines 136-145):
on success store the parsed payload and show results; on an exception set
the generic error message; in both cases the `finally` clears the
in-flight flag. -/
def runAnalysisComplete (s : Session) (o : FetchOutcome) : Session :=
  match o with
  | .success payload =>
      { s with analysis := some payload, showResults := true, isAnalyzing := false }
  | .failure =>
      { s with error := some analysisErrorMessage, isAnalyzing := false }

/-- A full uninterrupted run of `runAnalysis` with the given outcome of the
external call; the boolean records whether an invocation was launched. -/
def runAnalysis (s : Session) (o : FetchOutcome) : Session × Bool :=
  match runAnalysisStart s with
  | (s1, true) => (runAnalysisComplete s1 o, true)
  | (s1, false) => (s1, false)

/-- `reset` (src/unnamed/part_001 lines 148-154): clear answers, analysis,
results view and error. It does not touch `isAnalyzing`. -/
def reset (s : Session) : Session :=
  { s with answers := [], analysis := none, showResults := false, error := none }

/-- The session states of the spec (§4.5), derived from the component state the
way the render tree selects a view: `showResults` shows the results view
(Displaying); otherwise `isAnalyzing` shows the loading view (Analyzing);
otherwise all-answered enables submission (Ready); otherwise Collecting. -/
inductive SessionPhase where
  | Collecting | Ready | Analyzing | Displaying
deriving DecidableEq, Repr

/-- Derived session phase of a component state. -/
def phase (s : Session) : SessionPhase :=
  if s.showResults then .Displaying
  else if s.isAnalyzing then .Analyzing
  else if allAnswered s then .Ready
  else .Collecting

/-- The complete answer set of the scoring scenario in the spec:
`{1:4, 2:4, 3:4, 4:0, 5:4, 6:0, 7:0, 8:0, 9:0, 10:0}`. -/
def exampleAnswers : AnswerMap :=
  [(1, 4), (2, 4), (3, 4), (4, 0), (5, 4), (6, 0), (7, 0), (8, 0), (9, 0), (10, 0)]

/-- A session that has every question answered and no analysis yet. -/
def readySession : Session :=
  { answers := exampleAnswers, isAnalyzing := false, analysis := none,
    error := none, showResults := false }

/-- A session whose external invocation is in flight. -/
def analyzingSession : Session :=
  { answers := exampleAnswers, isAnalyzing := true, analysis := none,
    error := none, showResults := false }

/-- A well-formed JSON payload that lacks the `jobs` field. -/
def payloadMissingJobs : ParsedPayload :=
  { nickname := some "静かなる探求者", traits := some "特性の説明",
    jobs := none, partner := some "相性の説明" }

/-! ### Lemmas about the answer map -/

/-- Reading a concatenated object defers to the right part exactly when the
left part lacks the key. -/
theorem lookupAnswer_append (m l : AnswerMap) (id : Nat) :
    lookupAnswer (m ++ l) id =
      match lookupAnswer m id with
      | some v => some v
      | none => lookupAnswer l id := by
  induction m with
  | nil => rfl
  | cons p rest ih =>
    obtain ⟨k, w⟩ := p
    by_cases h : k = id
    · simp [lookupAnswer, h]
    · simpa [lookupAnswer, h] using ih

/-- Reading the replaced key after an in-place update. -/
theorem lookupAnswer_map_update (m : AnswerMap) (id v : Nat) :
    lookupAnswer (m.map (fun p => if p.1 = id then (id, v) else p)) id =
      if (lookupAnswer m id).isSome then some v else none := by
  induction m with
  | nil => rfl
  | cons p rest ih =>
    obtain ⟨k, w⟩ := p
    simp only [List.map_cons]
    by_cases h : k = id
    · subst h
      rw [show ((if (k, w).1 = k then (k, v) else (k, w)) : Nat × Nat) = (k, v) from if_pos rfl]
      simp [lookupAnswer]
    · rw [show ((if (k, w).1 = id then (id, v) else (k, w)) : Nat × Nat) = (k, w) from if_neg h]
      simp only [lookupAnswer, if_neg h]
      exact ih

/-- Reading another key is unaffected by an in-place update. -/
theorem lookupAnswer_map_update_ne (m : AnswerMap) (id v other : Nat)
    (h : other ≠ id) :
    lookupAnswer (m.map (fun p => if p.1 = id then (id, v) else p)) other =
      lookupAnswer m other := by
  induction m with
  | nil => rfl
  | cons p rest ih =>
    obtain ⟨k, w⟩ := p
    simp only [List.map_cons]
    by_cases hk : k = id
    · subst hk
      have hko : ¬(k = other) := fun hh => h (Eq.symm hh)
      rw [show ((if (k, w).1 = k then (k, v) else (k, w)) : Nat × Nat) = (k, v) from if_pos rfl]
      simp only [lookupAnswer, if_neg hko]
      exact ih
    · rw [show ((if (k, w).1 = id then (id, v) else (k, w)) : Nat × Nat) = (k, w) from if_neg hk]
      simp only [lookupAnswer]
      by_cases hko : k = other
      · rw [if_pos hko, if_pos hko]
      · rw [if_neg hko, if_neg hko]
        exact ih

/-- A key is absent exactly when no entry carries it. -/
theorem lookupAnswer_eq_none_iff (m : AnswerMap) (id : Nat) :
    lookupAnswer m id = none ↔ ∀ p ∈ m, p.1 ≠ id := by
  induction m with
  | nil => simp [lookupAnswer]
  | cons p rest ih =>
    obtain ⟨k, w⟩ := p
    by_cases h : k = id
    · subst h
      simp [lookupAnswer]
    · simp only [lookupAnswer, if_neg h, List.mem_cons, ih]
      constructor
      · rintro hrest p (rfl | hp)
        · exact h
        · exact hrest p hp
      · intro hall p hp
        exact hall p (Or.inr hp)

/-- A key has a value exactly when it appears among the keys of the object. -/
theorem lookupAnswer_isSome_iff_mem (m : AnswerMap) (id : Nat) :
    (lookupAnswer m id).isSome ↔ id ∈ m.map Prod.fst := by
  induction m with
  | nil => simp [lookupAnswer]
  | cons p rest ih =>
    obtain ⟨k, w⟩ := p
    by_cases h : k = id
    · subst h
      simp [lookupAnswer]
    · simp only [lookupAnswer, if_neg h, List.map_cons, List.mem_cons, ih]
      constructor
      · exact fun hm => Or.inr hm
      · rintro (rfl | hm)
        · exact absurd rfl h
        · exact hm

/-- Last-write-wins: after recording an answer, reading its key returns it. -/
theorem lookupAnswer_insert_self (m : AnswerMap) (id v : Nat) :
    lookupAnswer (insertAnswer m id v) id = some v := by
  unfold insertAnswer
  by_cases h : (lookupAnswer m id).isSome
  · rw [if_pos h, lookupAnswer_map_update, if_pos h]
  · rw [if_neg h, lookupAnswer_append]
    rw [Option.not_isSome_iff_eq_none] at h
    rw [h]
    simp [lookupAnswer]

/-- Recording an answer leaves the value of every other key unchanged. -/
theorem lookupAnswer_insert_ne (m : AnswerMap) (id v other : Nat)
    (h : other ≠ id) :
    lookupAnswer (insertAnswer m id v) other = lookupAnswer m other := by
  unfold insertAnswer
  by_cases hs : (lookupAnswer m id).isSome
  · rw [if_pos hs, lookupAnswer_map_update_ne m id v other h]
  · rw [if_neg hs, lookupAnswer_append]
    cases hm : lookupAnswer m other with
    | some w => rfl
    | none => simp [lookupAnswer, Ne.symm h]

/-- Overwriting an existing key keeps the key list unchanged. -/
theorem insertAnswer_keys_of_mem (m : AnswerMap) (id v : Nat)
    (h : (lookupAnswer m id).isSome) :
    (insertAnswer m id v).map Prod.fst = m.map Prod.fst := by
  unfold insertAnswer
  rw [if_pos h, List.map_map]
  apply List.map_congr_left
  intro p _
  by_cases hp : p.1 = id
  · simp [Function.comp, hp]
  · simp [Function.comp, hp]

/-- Overwriting an existing key keeps the key count unchanged. -/
theorem answerCount_insert_of_mem (m : AnswerMap) (id v : Nat)
    (h : (lookupAnswer m id).isSome) :
    answerCount (insertAnswer m id v) = answerCount m := by
  have hk := insertAnswer_keys_of_mem m id v
  unfold answerCount
  calc (insertAnswer m id v).length
      = ((insertAnswer m id v).map Prod.fst).length := (List.length_map _ _).symm
    _ = (m.map Prod.fst).length := by rw [hk h]
    _ = m.length := List.length_map _ _

/-- Every entry of the object holding the key of the recorded answer is that
answer itself. -/
theorem insertAnswer_entry_eq (m : AnswerMap) (id v : Nat) :
    ∀ p ∈ insertAnswer m id v, p.1 = id → p = (id, v) := by
  intro p hp hpid
  unfold insertAnswer at hp
  by_cases hs : (lookupAnswer m id).isSome
  · rw [if_pos hs] at hp
    obtain ⟨q, _, rfl⟩ := List.mem_map.mp hp
    by_cases hq : q.1 = id
    · rw [if_pos hq]
    · rw [if_neg hq] at hpid ⊢
      exact absurd hpid hq
  · rw [if_neg hs] at hp
    rw [Option.not_isSome_iff_eq_none, lookupAnswer_eq_none_iff] at hs
    rcases List.mem_append.mp hp with hm | hone
    · exact absurd hpid (hs p hm)
    · simpa using hone

/-- Recording the same answer twice is the same as recording it once. -/
theorem insertAnswer_idem (m : AnswerMap) (id v : Nat) :
    insertAnswer (insertAnswer m id v) id v = insertAnswer m id v := by
  have h1 : (lookupAnswer (insertAnswer m id v) id).isSome := by
    rw [lookupAnswer_insert_self]; rfl
  have step : insertAnswer (insertAnswer m id v) id v =
      (insertAnswer m id v).map (fun p => if p.1 = id then (id, v) else p) := by
    rw [insertAnswer, if_pos h1]
  rw [step]
  conv_rhs => rw [← List.map_id (insertAnswer m id v)]
  apply List.map_congr_left
  intro p hp
  by_cases hpid : p.1 = id
  · rw [if_pos hpid, id_eq]
    exact (insertAnswer_entry_eq m id v p hp hpid).symm
  · rw [if_neg hpid, id_eq]

/-! ### Lemmas about the scorer -/

/-- Unfolding of `calculateTrait`: the match on the catalog searches
resolves to the two question ids of the trait. -/
theorem calculateTrait_eq (m : AnswerMap) (t : Trait) :
    calculateTrait m t =
      (lookupAnswer m (posQId t)).bind fun p =>
        (lookupAnswer m (negQId t)).map fun n => ((p : ℚ) + (4 - (n : ℚ))) / 2 := by
  cases t <;> rfl

/-- The positive-polarity question ids located by the scorer. -/
theorem posQId_eval :
    posQId .E = 1 ∧ posQId .A = 2 ∧ posQId .C = 3 ∧ posQId .N = 4 ∧ posQId .O = 5 :=
  ⟨rfl, rfl, rfl, rfl, rfl⟩

/-- The negative-polarity question ids located by the scorer. -/
theorem negQId_eval :
    negQId .E = 6 ∧ negQId .A = 7 ∧ negQId .C = 8 ∧ negQId .N = 9 ∧ negQId .O = 10 :=
  ⟨rfl, rfl, rfl, rfl, rfl⟩

/-- `scores` is non-null exactly when the answer object has at least 10 keys. -/
theorem scores_isSome_iff (m : AnswerMap) :
    (scores m).isSome ↔ 10 ≤ answerCount m := by
  by_cases h : answerCount m < 10
  · simp only [scores, if_pos h, Option.isSome_none, Bool.false_eq_true, false_iff]
    omega
  · simp only [scores, if_neg h, Option.isSome_some, true_iff]
    omega

/-- Evaluation of the scorer on the scenario answers of the spec. -/
theorem scores_exampleAnswers_eval :
    scores exampleAnswers =
      some { E := some 4, A := some 4, C := some 4, N := some 2, O := some 4 } := by
  show (if answerCount exampleAnswers < 10 then none else _) = _
  rw [if_neg (by decide)]
  rw [calculateTrait_eq, calculateTrait_eq, calculateTrait_eq, calculateTrait_eq, calculateTrait_eq]
  norm_num [posQId_eval.1, posQId_eval.2.1, posQId_eval.2.2.1, posQId_eval.2.2.2.1, posQId_eval.2.2.2.2,
    negQId_eval.1, negQId_eval.2.1, negQId_eval.2.2.1, negQId_eval.2.2.2.1, negQId_eval.2.2.2.2,
    exampleAnswers, lookupAnswer]

/-! ### The claims -/

/-- C1: for every trait, with `p` the raw answer to the positive-polarity
question and `n` the raw answer to the negative-polarity question (each in
[0,4]), `calculateTrait` returns `(p + (4 - n)) / 2`; this value always
lies in [0,4], and the boundary inputs `p=0,n=4`, `p=4,n=0`, `p=2,n=2`
give scores `0`, `4` and `2` respectively. -/
theorem C1_trait_score_formula :
    (∀ (t : Trait) (m : AnswerMap) (p n : Nat), p ≤ 4 → n ≤ 4 →
      lookupAnswer m (posQId t) = some p → lookupAnswer m (negQId t) = some n →
      calculateTrait m t = some (((p : ℚ) + (4 - (n : ℚ))) / 2) ∧
      0 ≤ ((p : ℚ) + (4 - (n : ℚ))) / 2 ∧ ((p : ℚ) + (4 - (n : ℚ))) / 2 ≤ 4) ∧
    (∀ t : Trait,
      calculateTrait [(posQId t, 0), (negQId t, 4)] t = some 0 ∧
      calculateTrait [(posQId t, 4), (negQId t, 0)] t = some 4 ∧
      calculateTrait [(posQId t, 2), (negQId t, 2)] t = some 2) := by
  constructor
  · intro t m p n hp hn hmp hmn
    have hp4 : (p : ℚ) ≤ 4 := by exact_mod_cast hp
    have hn4 : (n : ℚ) ≤ 4 := by exact_mod_cast hn
    have hp0 : (0 : ℚ) ≤ (p : ℚ) := Nat.cast_nonneg p
    have hn0 : (0 : ℚ) ≤ (n : ℚ) := Nat.cast_nonneg n
    refine ⟨?_, by linarith, by linarith⟩
    rw [calculateTrait_eq, hmp, hmn]
    rfl
  · intro t
    cases t <;>
      refine ⟨?_, ?_, ?_⟩ <;>
      simp only [calculateTrait_eq,
        posQId_eval.1, posQId_eval.2.1, posQId_eval.2.2.1, posQId_eval.2.2.2.1, posQId_eval.2.2.2.2,
        negQId_eval.1, negQId_eval.2.1, negQId_eval.2.2.1, negQId_eval.2.2.2.1, negQId_eval.2.2.2.2] <;>
      norm_num [lookupAnswer]

/-- Witness for C1 at trait E with answers `{1: 3, 6: 1}`:
the score is `(3 + (4 - 1)) / 2 = 3`. -/
theorem C1_trait_score_formula_witness :
    calculateTrait [(1, 3), (6, 1)] .E = some 3 := by
  have h := C1_trait_score_formula.1 .E [(1, 3), (6, 1)] 3 1
    (by norm_num) (by norm_num) rfl rfl
  rw [h.1]
  norm_num

/-- C5 counterexample: on the scenario answers
`{1:4, 2:4, 3:4, 4:0, 5:4, 6:0, 7:0, 8:0, 9:0, 10:0}` the trait N scores
`2`, not `4`: the claim that every one of the five traits scores `4.0` is
false. -/
theorem C5_counterexample :
    (scores exampleAnswers).bind ScoresRec.N = some 2 ∧ (2 : ℚ) ≠ 4 := by
  refine ⟨?_, by norm_num⟩
  rw [scores_exampleAnswers_eval]
  rfl

/-- C5 amended: on the scenario answers the Scorer yields `4.0` for
traits E, A, C and O, but `2.0` for trait N (its positive question, id 4,
was answered 0 and its negative question, id 9, was answered 0). -/
theorem C5_scenario_scores :
    scores exampleAnswers =
      some { E := some 4, A := some 4, C := some 4, N := some 2, O := some 4 } :=
  scores_exampleAnswers_eval

/-- C9: recording an answer overwrites any prior answer for that question
id and leaves every other id unchanged; recording the same value twice
yields a session, and hence Scores, identical to recording it once. -/
theorem C9_last_write_wins (s : Session) (id v other : Nat) (h : other ≠ id) :
    lookupAnswer (handleAnswer s id v).answers id = some v ∧
    lookupAnswer (handleAnswer s id v).answers other = lookupAnswer s.answers other ∧
    handleAnswer (handleAnswer s id v) id v = handleAnswer s id v ∧
    scores (handleAnswer (handleAnswer s id v) id v).answers =
      scores (handleAnswer s id v).answers := by
  refine ⟨lookupAnswer_insert_self _ _ _, lookupAnswer_insert_ne _ _ _ _ h, ?_, ?_⟩
  · simp [handleAnswer, insertAnswer_idem]
  · simp [handleAnswer, insertAnswer_idem]

/-- Witness for C9: recording answer 2 for question 3 in the empty session
makes question 3 read back 2. -/
theorem C9_last_write_wins_witness :
    lookupAnswer (handleAnswer initialSession 3 2).answers 3 = some 2 :=
  (C9_last_write_wins initialSession 3 2 5 (by norm_num)).1

/-- C10: the catalog holds exactly 10 questions, their ids are exactly
1..10 (hence unique), and each of the five traits has exactly one
positive-polarity and exactly one negative-polarity question. -/
theorem C10_catalog_invariant :
    QUESTIONS.length = 10 ∧
    QUESTIONS.map Question.id = [1, 2, 3, 4, 5, 6, 7, 8, 9, 10] ∧
    (QUESTIONS.map Question.id).Nodup ∧
    ∀ t : Trait,
      (QUESTIONS.filter (fun q => q.trait == t && q.isPositive)).length = 1 ∧
      (QUESTIONS.filter (fun q => q.trait == t && !q.isPositive)).length = 1 := by
  refine ⟨rfl, rfl, by decide, ?_⟩
  intro t
  cases t <;> exact ⟨rfl, rfl⟩

/-- C4: for any answer object whose keys are catalog question ids, with no
duplicate keys, `scores` is non-null exactly when every one of the 10
catalog question ids has a recorded answer; and re-answering an already
answered id never changes whether `scores` is defined (so answering the
same id twice does not advance completeness). -/
theorem C4_completeness_gate (m : AnswerMap)
    (hsub : ∀ k ∈ m.map Prod.fst, k ∈ QUESTIONS.map Question.id)
    (hnodup : (m.map Prod.fst).Nodup) :
    ((scores m).isSome ↔ ∀ q ∈ QUESTIONS, (lookupAnswer m q.id).isSome) ∧
    (∀ id v, (lookupAnswer m id).isSome →
      ((scores (insertAnswer m id v)).isSome ↔ (scores m).isSome)) := by
  have hlen : (m.map Prod.fst).length = answerCount m := List.length_map _ _
  have hidlen : (QUESTIONS.map Question.id).toFinset.card = 10 := by decide
  constructor
  · constructor
    · intro hs q hq
      have h10 : 10 ≤ answerCount m := (scores_isSome_iff m).mp hs
      have hsubF : (m.map Prod.fst).toFinset ⊆ (QUESTIONS.map Question.id).toFinset := by
        intro x hx
        exact List.mem_toFinset.mpr (hsub x (List.mem_toFinset.mp hx))
      have hcard1 : (m.map Prod.fst).toFinset.card = (m.map Prod.fst).length :=
        List.toFinset_card_of_nodup hnodup
      have heq : (m.map Prod.fst).toFinset = (QUESTIONS.map Question.id).toFinset := by
        apply Finset.eq_of_subset_of_card_le hsubF
        rw [hidlen, hcard1, hlen]
        exact h10
      have hqid : q.id ∈ (QUESTIONS.map Question.id).toFinset :=
        List.mem_toFinset.mpr (List.mem_map_of_mem Question.id hq)
      have : q.id ∈ m.map Prod.fst := List.mem_toFinset.mp (heq ▸ hqid)
      exact (lookupAnswer_isSome_iff_mem m q.id).mpr this
    · intro hall
      apply (scores_isSome_iff m).mpr
      have hsubF : (QUESTIONS.map Question.id).toFinset ⊆ (m.map Prod.fst).toFinset := by
        intro x hx
        obtain ⟨q, hq, rfl⟩ := List.mem_map.mp (List.mem_toFinset.mp hx)
        exact List.mem_toFinset.mpr
          ((lookupAnswer_isSome_iff_mem m q.id).mp (hall q hq))
      have h1 : 10 ≤ (m.map Prod.fst).toFinset.card := by
        have := Finset.card_le_card hsubF
        rw [hidlen] at this
        exact this
      calc 10 ≤ (m.map Prod.fst).toFinset.card := h1
        _ ≤ (m.map Prod.fst).length := List.toFinset_card_le (m.map Prod.fst)
        _ = answerCount m := hlen
  · intro id v hmem
    rw [scores_isSome_iff, scores_isSome_iff, answerCount_insert_of_mem m id v hmem]

/-- Witness for C4 at the complete scenario answers: every catalog id is
answered, so the Scores value is defined. -/
theorem C4_completeness_gate_witness :
    (scores exampleAnswers).isSome = true := by
  have h := C4_completeness_gate exampleAnswers (by decide) (by decide)
  exact h.1.mpr (by decide)

/-- C2 counterexample: when the external call succeeds and returns a
well-formed JSON payload that lacks the `jobs` field, `runAnalysis` does
not end in the error state: it stores the partial payload as the analysis
result, leaves the error empty, and moves the session to Displaying. -/
theorem C2_counterexample :
    (runAnalysis readySession (.success payloadMissingJobs)).1.analysis
        = some payloadMissingJobs ∧
    payloadMissingJobs.jobs = none ∧
    (runAnalysis readySession (.success payloadMissingJobs)).1.error = none ∧
    (runAnalysis readySession (.success payloadMissingJobs)).1.showResults = true ∧
    phase (runAnalysis readySession (.success payloadMissingJobs)).1
        = SessionPhase.Displaying :=
  ⟨rfl, rfl, rfl, rfl, rfl⟩

/-- C2 amended: only an exception of the external call (transport failure
or malformed JSON, which makes `JSON.parse` throw) ends `runAnalysis` in
the error state with no analysis stored; a transport-level success whose
payload merely lacks a required field is not validated: the partial
payload is stored as the analysis result and the session shows results
with no error. -/
theorem C2_parse_failure_behavior (s : Session) (p : ParsedPayload)
    (h : (scores s.answers).isSome) :
    (runAnalysis s .failure).1.error = some analysisErrorMessage ∧
    (runAnalysis s .failure).1.analysis = s.analysis ∧
    (runAnalysis s .failure).1.showResults = s.showResults ∧
    (runAnalysis s (.success p)).1.analysis = some p ∧
    (runAnalysis s (.success p)).1.showResults = true ∧
    (runAnalysis s (.success p)).1.error = none := by
  have hne : ¬(scores s.answers = none) := by
    intro hc
    rw [hc] at h
    exact absurd h (by simp)
  simp [runAnalysis, runAnalysisStart, if_neg hne, runAnalysisComplete]

/-- Witness for C2 amended at the ready session and the payload missing
`jobs`. -/
theorem C2_parse_failure_behavior_witness :
    (runAnalysis readySession (.success payloadMissingJobs)).1.analysis
      = some payloadMissingJobs := by
  have h := C2_parse_failure_behavior readySession payloadMissingJobs rfl
  exact h.2.2.2.1

/-- C3 counterexample: in a session whose first invocation is still in
flight (phase Analyzing), a direct second call of `runAnalysis` is not a
no-op: it launches a second external invocation, so two rapid calls
launch two invocations, not one. -/
theorem C3_counterexample :
    (runAnalysisStart readySession).2 = true ∧
    phase (runAnalysisStart readySession).1 = SessionPhase.Analyzing ∧
    (runAnalysisStart (runAnalysisStart readySession).1).2 = true :=
  ⟨rfl, rfl, rfl⟩

/-- C3 amended: `runAnalysis` launches an external invocation exactly when
`scores` is defined; it never consults the in-flight flag, so being in
state Analyzing does not make the call a no-op. Single-flight holds in the
app only because the UI replaces the trigger button with the loading view
while `isAnalyzing` is set. -/
theorem C3_launch_guard (s : Session) :
    ((runAnalysisStart s).2 = true ↔ (scores s.answers).isSome) ∧
    (runAnalysisStart { s with isAnalyzing := true }).2 = (runAnalysisStart s).2 := by
  constructor
  · by_cases h : scores s.answers = none
    · simp [runAnalysisStart, h]
    · simp [runAnalysisStart, h, Option.isSome_iff_ne_none]
  · by_cases h : scores s.answers = none
    · simp [runAnalysisStart, h]
    · simp [runAnalysisStart, h]

/-- C6: `reset` does not clear the in-flight flag, and if the in-flight
invocation later resolves successfully, its late payload is still stored
as the analysis result and the session moves to Displaying: stale
responses are not discarded after reset. -/
theorem C6_late_response_after_reset (s : Session) (p : ParsedPayload)
    (h : s.isAnalyzing = true) :
    (reset s).isAnalyzing = true ∧
    (runAnalysisComplete (reset s) (.success p)).analysis = some p ∧
    (runAnalysisComplete (reset s) (.success p)).showResults = true ∧
    phase (runAnalysisComplete (reset s) (.success p)) = SessionPhase.Displaying :=
  ⟨h, rfl, rfl, rfl⟩

/-- Witness for C6: resetting the in-flight session and then receiving the
late payload stores it. -/
theorem C6_late_response_after_reset_witness :
    (runAnalysisComplete (reset analyzingSession) (.success payloadMissingJobs)).analysis
      = some payloadMissingJobs :=
  (C6_late_response_after_reset analyzingSession payloadMissingJobs rfl).2.1

/-- C7: when the external invocation throws, `runAnalysis` stores the
single generic user-facing message, clears the in-flight flag, leaves the
analysis result absent and the answers (hence Scores) unchanged, and a
retry from the resulting session launches a new invocation. -/
theorem C7_transport_failure (s : Session)
    (hready : (scores s.answers).isSome) (hnone : s.analysis = none) :
    (runAnalysis s .failure).1.error = some analysisErrorMessage ∧
    (runAnalysis s .failure).1.isAnalyzing = false ∧
    (runAnalysis s .failure).1.analysis = none ∧
    (runAnalysis s .failure).1.answers = s.answers ∧
    scores (runAnalysis s .failure).1.answers = scores s.answers ∧
    (runAnalysisStart (runAnalysis s .failure).1).2 = true := by
  have hne : ¬(scores s.answers = none) := by
    intro hc
    rw [hc] at hready
    exact absurd hready (by simp)
  simp [runAnalysis, runAnalysisStart, if_neg hne, runAnalysisComplete, hnone]

/-- Witness for C7 at the ready session with a failing invocation. -/
theorem C7_transport_failure_witness :
    (runAnalysis readySession .failure).1.error = some analysisErrorMessage :=
  (C7_transport_failure readySession rfl rfl).1

/-- C8 counterexample: calling `reset` while an invocation is in flight
does not return the session to Collecting: the in-flight flag is not
cleared, so the session phase is still Analyzing. -/
theorem C8_counterexample :
    (reset analyzingSession).isAnalyzing = true ∧
    phase (reset analyzingSession) = SessionPhase.Analyzing ∧
    SessionPhase.Analyzing ≠ SessionPhase.Collecting :=
  ⟨rfl, rfl, by decide⟩

/-- C8 amended: `reset` may be called in any state and always clears the
answers (making Scores absent), the analysis result and the error; it
leaves the in-flight flag exactly as it was, so the session returns to
Collecting precisely when no invocation is in flight. -/
theorem C8_reset_clears (s : Session) :
    (reset s).answers = [] ∧
    scores (reset s).answers = none ∧
    (reset s).analysis = none ∧
    (reset s).error = none ∧
    (reset s).isAnalyzing = s.isAnalyzing ∧
    (s.isAnalyzing = false → phase (reset s) = SessionPhase.Collecting) := by
  refine ⟨rfl, rfl, rfl, rfl, rfl, ?_⟩
  intro h
  simp [phase, reset, allAnswered, answerCount, h, QUESTIONS]

/-- Witness for C8 amended: resetting the initial session yields the
Collecting phase. -/
theorem C8_reset_clears_witness :
    phase (reset initialSession) = SessionPhase.Collecting :=
  (C8_reset_clears initialSession).2.2.2.2.2 rfl
